import Mathlib

/-!
Shallow embedding of `gdrive_downloader.py` (class `GDriveDownloader`).

Strings are modelled as `List Char`.  The HTTP layer is modelled as a
function `Net : List Char → Option Response`, mapping a request URL to
`none` when the request raises a network exception and to `some r`
when it returns a response; `r.url` is the effective (post-redirect)
URL, matching `response.url` of the Python `requests` library, so
"follows redirects" is expressed by classifying on that field.  The
regular expressions used by the source are all of the shape
literal-plus-character-class; they are modelled by explicit
leftmost-match scanners with the same greedy semantics.  Console
output is modelled only where a claim mentions it: the per-link
"Invalid link" reports become the `invalid` component of `Summary`,
and the file writes performed by `download_file` become an explicit
list of (path, body) pairs.
-/

def lc (s : String) : List Char := s.data

/-- `needle in hay` on strings: substring test. -/
def List.containsSub (hay needle : List Char) : Bool :=
  match hay with
  | [] => needle.isEmpty
  | c :: t => needle.isPrefixOf (c :: t) || List.containsSub t needle

structure Response where
  url : List Char
  status : Nat
  body : List Char
  headers : List (List Char × List Char)
  cookies : List (List Char × List Char)
deriving DecidableEq

def Net : Type := List Char → Option Response

/-- The character class `[a-zA-Z0-9_-]` used by every ID pattern in the source. -/
def idChar (c : Char) : Bool := c.isAlpha || c.isDigit || c == '_' || c == '-'

/-- One-position match of a regex `LIT([a-zA-Z0-9_-]+)`: the literal part must
be a prefix here, followed by a nonempty greedy run of ID characters. -/
def matchAt (lit s : List Char) : Option (List Char) :=
  if lit.isPrefixOf s then
    if (s.drop lit.length).takeWhile idChar = [] then none
    else some ((s.drop lit.length).takeWhile idChar)
  else none

/-- `re.search` semantics: try the one-position matcher at each start
position from the left, first success wins. -/
def scanFirst (f : List Char → Option (List Char)) : List Char → Option (List Char)
  | [] => f []
  | c :: t =>
    match f (c :: t) with
    | some r => some r
    | none => scanFirst f t

def searchLit (lit s : List Char) : Option (List Char) := scanFirst (matchAt lit) s

/-- `re.findall` semantics for `LIT([a-zA-Z0-9_-]+)`: all non-overlapping
matches, left to right, each capture group collected. -/
def findAllLit (lit : List Char) : List Char → List (List Char)
  | [] => []
  | c :: t =>
    match hm : matchAt lit (c :: t) with
    | some run => run :: findAllLit lit ((c :: t).drop (lit.length + run.length))
    | none => findAllLit lit t
termination_by s => s.length
decreasing_by
  · have hp : 0 < run.length := by
      unfold matchAt at hm
      split at hm
      · split at hm
        · exact absurd hm (by simp)
        · rename_i hne
          injection hm with h2
          subst h2
          exact List.length_pos.mpr hne
      · exact absurd hm (by simp)
    simp only [List.length_drop, List.length_cons]
    omega
  · simp only [List.length_cons]
    omega

/-- `extract_file_id` (source lines 36-49): the four patterns tried in order,
first match wins, `None` when nothing matches. -/
def extract_file_id (url : List Char) : Option (List Char) :=
  match searchLit (lc "/file/d/") url with
  | some g => some g
  | none =>
    match searchLit (lc "id=") url with
    | some g => some g
    | none =>
      match searchLit (lc "/folders/") url with
      | some g => some g
      | none => searchLit (lc "drive.google.com/open?id=") url

/-- The character set of the sanitizing substitution `re.sub(r'[<>:"/\\|?*]', '_', _)`. -/
def badChars : List Char := ['<', '>', ':', '"', '/', '\\', '|', '?', '*']

/-- `re.sub(r'[<>:"/\\|?*]', '_', s)` (source lines 69 and 91). -/
def sanitize (s : List Char) : List Char :=
  s.map (fun c => if c ∈ badChars then '_' else c)

/-- `str.strip()` on both ends (whitespace). -/
def stripBoth (s : List Char) : List Char :=
  ((s.dropWhile Char.isWhitespace).reverse.dropWhile Char.isWhitespace).reverse

/-- `str.replace(pat, '')`: remove every non-overlapping occurrence, left to right. -/
def replaceAll (pat : List Char) (s : List Char) : List Char :=
  match s with
  | [] => []
  | c :: t =>
    if h : pat ≠ [] ∧ pat.isPrefixOf (c :: t) then
      replaceAll pat ((c :: t).drop pat.length)
    else
      c :: replaceAll pat t
termination_by s.length
decreasing_by
  · have hp : 0 < pat.length := List.length_pos.mpr h.1
    simp only [List.length_drop, List.length_cons]
    omega
  · simp only [List.length_cons]
    omega

/-- One-position match of `re.search(r'<title>([^<]+)</title>', _)`: the greedy
nonempty run of non-`<` characters must be directly followed by the closing tag
(shorter backtracked captures cannot succeed since the next character would not
be `<`). -/
def titleAt (s : List Char) : Option (List Char) :=
  if (lc "<title>").isPrefixOf s then
    let rest := s.drop 7
    let run := rest.takeWhile (fun c => c != '<')
    if run ≠ [] ∧ (lc "</title>").isPrefixOf (rest.drop run.length) then some run
    else none
  else none

def extractTitle (s : List Char) : Option (List Char) := scanFirst titleAt s

/-- Single-quote character, written by code point. -/
def sqc : Char := Char.ofNat 39

/-- One-position match of `filename\*?=["\']?(?:UTF-8\'\')?([^"\';]+)` (source
line 102).  The optional pieces are consumed greedily; the only live
backtracking point of that regex is the optional `UTF-8''`, which is retried
unconsumed when the capture after it would be empty. -/
def dispAt (s : List Char) : Option (List Char) :=
  if (lc "filename").isPrefixOf s then
    let r1 := s.drop 8
    let r2 := if r1.head? = some '*' then r1.drop 1 else r1
    match r2 with
    | '=' :: r3 =>
      let r4 :=
        match r3.head? with
        | some c => if c == '"' || c == sqc then r3.drop 1 else r3
        | none => r3
      let cap := fun (u : List Char) => u.takeWhile (fun c => !(c == '"' || c == sqc || c == ';'))
      if (lc "UTF-8" ++ [sqc, sqc]).isPrefixOf r4 then
        let c1 := cap (r4.drop 7)
        if c1 = [] then
          let c2 := cap r4
          if c2 = [] then none else some c2
        else some c1
      else
        let c := cap r4
        if c = [] then none else some c
    | _ => none
  else none

def dispositionFilename (cd : List Char) : Option (List Char) := scanFirst dispAt cd

def hexVal (c : Char) : Option Nat :=
  if '0' ≤ c ∧ c ≤ '9' then some (c.toNat - 48)
  else if 'a' ≤ c ∧ c ≤ 'f' then some (c.toNat - 87)
  else if 'A' ≤ c ∧ c ≤ 'F' then some (c.toNat - 70)
  else none

/-- `urllib.parse.unquote` modelled at the byte/ASCII level: each valid `%XX`
escape becomes the character with that code, anything else is kept. -/
def percentDecode : List Char → List Char
  | [] => []
  | '%' :: a :: b :: t =>
    match hexVal a, hexVal b with
    | some x, some y => Char.ofNat (16 * x + y) :: percentDecode t
    | _, _ => '%' :: percentDecode (a :: b :: t)
  | c :: t => c :: percentDecode t

/-- Case-insensitive header lookup, matching `requests`' `CaseInsensitiveDict`. -/
def headerLookup (hs : List (List Char × List Char)) (k : List Char) : Option (List Char) :=
  match hs with
  | [] => none
  | p :: t =>
    if p.1.map Char.toLower = k.map Char.toLower then some p.2 else headerLookup t k

-- The three service endpoints keyed by an ID (source lines 53, 80, 94).
def folderUrl (fid : List Char) : List Char := lc "https://drive.google.com/drive/folders/" ++ fid
def infoUrl (fid : List Char) : List Char := lc "https://drive.google.com/file/d/" ++ fid ++ lc "/view"
def downloadUrl (fid : List Char) : List Char := lc "https://drive.google.com/uc?id=" ++ fid ++ lc "&export=download"

/-- `is_folder` (source lines 51-55): fetch the folder-view endpoint following
redirects and test whether the effective URL still mentions `folders`.  The
source has no try/except here, so a raised network error (`none`) propagates
as `Except.error`. -/
def is_folder (net : Net) (fid : List Char) : Except Unit Bool :=
  match net (folderUrl fid) with
  | none => Except.error ()
  | some r => Except.ok (r.url.containsSub (lc "folders"))

/-- `get_folder_name` (source lines 57-74): title scrape with the
` - Google Drive` suffix removed, stripped and sanitized; every failure path
(exception, non-200 status, no title, empty cleaned name) falls back to
`folder_<first 8 chars of the id>`. -/
def get_folder_name (net : Net) (fid : List Char) : List Char :=
  match net (folderUrl fid) with
  | none => lc "folder_" ++ fid.take 8
  | some r =>
    if r.status = 200 then
      match extractTitle r.body with
      | some t =>
        let name := sanitize (stripBoth (replaceAll (lc " - Google Drive") t))
        if name = [] then lc "folder_" ++ fid.take 8 else name
      | none => lc "folder_" ++ fid.take 8
    else lc "folder_" ++ fid.take 8

/-- The title-derived filename candidate of `get_file_metadata`
(source lines 86-91); `[]` plays the role of Python's falsy `None`/`""`. -/
def title_candidate (r : Response) : List Char :=
  if r.status = 200 then
    match extractTitle r.body with
    | some t => sanitize (stripBoth (replaceAll (lc " - Google Drive") t))
    | none => []
  else []

/-- The content-disposition filename directive of the download response
(source lines 100-104). -/
def headerFilename (r : Response) : Option (List Char) :=
  match headerLookup r.headers (lc "Content-Disposition") with
  | some cd => dispositionFilename cd
  | none => none

/-- Source lines 104-109: the percent-decoded header filename replaces the
candidate only when nonempty and containing a dot. -/
def header_or_title (hf? : Option (List Char)) (f0 : List Char) : List Char :=
  match hf? with
  | some hf =>
    let d := percentDecode hf
    if d ≠ [] ∧ '.' ∈ d then d else f0
  | none => f0

/-- The static MIME → extension table of `get_extension_from_content_type`
(source lines 191-214), in source order. -/
def extTable : List (List Char × List Char) :=
  [ (lc "image/jpeg", lc ".jpg"),
    (lc "image/png", lc ".png"),
    (lc "image/gif", lc ".gif"),
    (lc "image/webp", lc ".webp"),
    (lc "application/pdf", lc ".pdf"),
    (lc "application/zip", lc ".zip"),
    (lc "application/x-rar-compressed", lc ".rar"),
    (lc "application/vnd.openxmlformats-officedocument.wordprocessingml.document", lc ".docx"),
    (lc "application/vnd.openxmlformats-officedocument.spreadsheetml.sheet", lc ".xlsx"),
    (lc "application/vnd.openxmlformats-officedocument.presentationml.presentation", lc ".pptx"),
    (lc "text/plain", lc ".txt"),
    (lc "text/html", lc ".html"),
    (lc "video/mp4", lc ".mp4"),
    (lc "audio/mpeg", lc ".mp3") ]

def extFromTable (tbl : List (List Char × List Char)) (ct : List Char) : List Char :=
  match tbl with
  | [] => []
  | p :: t => if ct.containsSub p.1 then p.2 else extFromTable t ct

/-- `get_extension_from_content_type`: first table entry whose MIME string
occurs inside the declared content type wins, `''` otherwise. -/
def get_extension_from_content_type (ct : List Char) : List Char := extFromTable extTable ct

/-- Source lines 114-120: extend or synthesize the filename when it is falsy
or has no extension. -/
def choose_filename (f1 fid ext : List Char) : List Char :=
  if f1 = [] ∨ '.' ∉ f1 then
    if f1 ≠ [] ∧ ext ≠ [] then f1 ++ ext
    else if f1 = [] then lc "file_" ++ fid ++ ext
    else f1
  else f1

structure Metadata where
  filename : List Char
  url : List Char
  file_id : List Char
  response : Option Response
deriving DecidableEq

/-- The best-effort descriptor of the `except` branch of `get_file_metadata`
(source lines 128-135). -/
def fallbackMetadata (fid : List Char) : Metadata :=
  ⟨lc "file_" ++ fid, downloadUrl fid, fid, none⟩

/-- `get_file_metadata` (source lines 76-135): info-page fetch for a title
candidate, download-endpoint fetch for disposition/content-type signals; a
raised network error anywhere inside the `try` yields the fallback
descriptor. -/
def get_file_metadata (net : Net) (fid : List Char) : Metadata :=
  match net (infoUrl fid) with
  | none => fallbackMetadata fid
  | some ir =>
    match net (downloadUrl fid) with
    | none => fallbackMetadata fid
    | some dr =>
      let f1 := header_or_title (headerFilename dr) (title_candidate ir)
      let ctype := (headerLookup dr.headers (lc "Content-Type")).getD []
      ⟨choose_filename f1 fid (get_extension_from_content_type ctype),
        downloadUrl fid, fid, some dr⟩

/-- The child-kind decision of `list_folder_items` (source lines 163-173):
textual heuristic first, then the `is_folder` probe with its exception
recovered as File (`false`). -/
def classify_child (net : Net) (text fid : List Char) : Bool :=
  if text.containsSub (lc "/folders/" ++ fid) then true
  else
    match is_folder net fid with
    | Except.ok b => b
    | Except.error _ => false

/-- Duplicate removal keeping the first occurrence. -/
def dedupSeen (seen : List (List Char)) : List (List Char) → List (List Char)
  | [] => []
  | h :: t => if h ∈ seen then dedupSeen seen t else h :: dedupSeen (h :: seen) t

/-- Candidate child IDs harvested from the folder page (source lines 150-156):
the three patterns in source order, the folder's own ID excluded, duplicates
removed.  Python stores them in a `set`, whose iteration order is
unspecified; first-occurrence order is used as a deterministic
representative. -/
def foundIds (text folder_id : List Char) : List (List Char) :=
  let raw := findAllLit (lc "/file/d/") text ++ findAllLit (lc "/folders/") text ++
    findAllLit (lc "id=") text
  dedupSeen [] (raw.filter (fun m => m != folder_id))

/-- Directory separator of `os.path.join` on POSIX. -/
def sep : Char := '/'

/-- `list_folder_items` (source lines 137-189): depth-guarded recursive scrape.
A raised network error on the folder-page fetch is recovered as `[]` by the
`except` of line 188; the recursive call passes `depth+1` and the child's
display name joined onto the parent path. -/
def list_folder_items (net : Net) (folder_id parent_folder_name : List Char)
    (depth max_depth : Nat) : List (List Char × List Char) :=
  if hd : depth > max_depth then []
  else
    match net (folderUrl folder_id) with
    | none => []
    | some resp =>
      let text := resp.body
      let ids := foundIds text folder_id
      let folder_name :=
        if parent_folder_name = [] then get_folder_name net folder_id else parent_folder_name
      (ids.map (fun fid =>
        if classify_child net text fid then
          list_folder_items net fid (folder_name ++ [sep] ++ get_folder_name net fid)
            (depth + 1) max_depth
        else
          [(fid, folder_name)])).join
termination_by max_depth + 1 - depth
decreasing_by
  simp only [not_lt] at hd
  omega

/-- The confirmation handshake of `download_file` (source lines 243-250):
when the first response exposes the warning marker (marker string in the body
or a non-200 status), the first cookie whose name starts with
`download_warning` triggers exactly one retry with its value as the `confirm`
parameter; the function returns the final response (`none` when the retry
itself raises) together with the list of retry URLs issued. -/
def confirm_step (net : Net) (base : List Char) (r0 : Response) :
    Option Response × List (List Char) :=
  if r0.body.containsSub (lc "download_warning") = true ∨ r0.status ≠ 200 then
    match r0.cookies.find? (fun p => (lc "download_warning").isPrefixOf p.1) with
    | some kv =>
      let u := base ++ lc "&confirm=" ++ kv.2
      (net u, [u])
    | none => (some r0, [])
  else (some r0, [])

/-- `download_file` (source lines 216-276).  The whole body is inside one
`try`, so the result is a total pair (success flag, writes performed); every
raised network error maps to `(false, [])`.  `if not response:` is Python
truthiness of a `requests.Response`, which is `status < 400`, hence the
re-fetch when the stored metadata response has an error status.  The chunked
copy of lines 252-266 is modelled as a single write of the final body. -/
def download_file (net : Net) (download_dir fid : List Char)
    (folder_name : Option (List Char)) : Bool × List (List Char × List Char) :=
  match is_folder net fid with
  | Except.error _ => (false, [])
  | Except.ok true => (false, [])
  | Except.ok false =>
    let md := get_file_metadata net fid
    let save_dir :=
      match folder_name with
      | some fn => download_dir ++ [sep] ++ fn
      | none => download_dir
    let filepath := save_dir ++ [sep] ++ md.filename
    let resp0 :=
      match md.response with
      | some r => if 400 ≤ r.status then net md.url else some r
      | none => net md.url
    match resp0 with
    | none => (false, [])
    | some r0 =>
      match (confirm_step net md.url r0).1 with
      | none => (false, [])
      | some rf => (true, [(filepath, rf.body)])

/-- The queue-construction loop of `download_multiple` (source lines 285-305):
invalid links are reported and dropped, folder links are expanded through
`list_folder_items` (depth 0, max 5), file links are queued directly.  The
`is_folder` probe of line 290 runs outside any try/except, so its raised
network error aborts the whole loop (`Except.error`). -/
def queue_tasks (net : Net) :
    List (List Char) → Except Unit (List (List Char × Option (List Char)) × List (List Char))
  | [] => Except.ok ([], [])
  | link :: rest =>
    match extract_file_id link with
    | none =>
      match queue_tasks net rest with
      | Except.error e => Except.error e
      | Except.ok (ts, inv) => Except.ok (ts, link :: inv)
    | some fid =>
      match is_folder net fid with
      | Except.error e => Except.error e
      | Except.ok true =>
        let fname := get_folder_name net fid
        let items := (list_folder_items net fid fname 0 5).map (fun p => (p.1, some p.2))
        match queue_tasks net rest with
        | Except.error e => Except.error e
        | Except.ok (ts, inv) => Except.ok (items ++ ts, inv)
      | Except.ok false =>
        match queue_tasks net rest with
        | Except.error e => Except.error e
        | Except.ok (ts, inv) => Except.ok ((fid, none) :: ts, inv)

/-- The worker-pool phase of `download_multiple` (source lines 309-322): every
queued task runs `download_file` and the success/failure counters are the
tallies of the per-task outcomes.  Completion order is irrelevant to the
counters, so the pool is modelled as a pointwise map. -/
def run_tasks (net : Net) (download_dir : List Char)
    (tasks : List (List Char × Option (List Char))) : Nat × Nat :=
  let outcomes := tasks.map (fun t => (download_file net download_dir t.1 t.2).1)
  (outcomes.count true, outcomes.count false)

structure Summary where
  successful : Nat
  failed : Nat
  invalid : List (List Char)
deriving DecidableEq

/-- `download_multiple` (source lines 278-330): queue construction followed by
the worker pool and the final summary.  The `invalid` component records the
per-link "Invalid link" reports of line 305, which never reach the
successful/failed counters. -/
def download_multiple (net : Net) (download_dir : List Char) (links : List (List Char)) :
    Except Unit Summary :=
  match queue_tasks net links with
  | Except.error e => Except.error e
  | Except.ok (tasks, inv) =>
    let r := run_tasks net download_dir tasks
    Except.ok ⟨r.1, r.2, inv⟩

-- Concrete environments used by witnesses and counterexamples.

/-- A network where every request raises. -/
def netFail : Net := fun _ => none

/-- A network answering every request with an empty 200 response whose
effective URL does not mention `folders`. -/
def netFile : Net := fun _ => some ⟨lc "x", 200, [], [], []⟩

/-- A network whose download response carries a content-disposition filename
containing a path separator. -/
def netDisp : Net := fun _ =>
  some ⟨lc "x", 200, [], [(lc "Content-Disposition", lc "filename=\"a/b.pdf\"")], []⟩

/-- A network where every effective URL mentions `folders`, so every kind
probe classifies the ID as a folder. -/
def netFolder : Net := fun _ => some ⟨lc "folders", 200, [], [], []⟩

/-- A cyclic folder graph: folder `A` lists folder `B` and vice versa. -/
def netCyc : Net := fun u =>
  if u = folderUrl (lc "A") then some ⟨lc "folders", 200, lc "/folders/B", [], []⟩
  else if u = folderUrl (lc "B") then some ⟨lc "folders", 200, lc "/folders/A", [], []⟩
  else none

/-- A network echoing the request URL into the effective URL. -/
def netEcho : Net := fun u => some ⟨u, 200, [], [], []⟩

/-- A first download response exposing the warning marker through its non-200
status and carrying a warning-prefixed confirmation cookie. -/
def resp5 : Response := ⟨[], 404, [], [], [(lc "download_warning_a", lc "TOK")]⟩

-- ### Helper lemmas about the sanitizer and outcome counting

theorem sanitize_cons (c : Char) (t : List Char) :
    sanitize (c :: t) = (if c ∈ badChars then '_' else c) :: sanitize t := rfl

theorem mem_sanitize_not_bad (c : Char) (s : List Char) (h : c ∈ sanitize s) :
    c ∉ badChars := by
  unfold sanitize at h
  rcases List.mem_map.mp h with ⟨a, _, rfl⟩
  by_cases hb : a ∈ badChars
  · rw [if_pos hb]
    decide
  · rw [if_neg hb]
    exact hb

theorem sanitize_fix_of_safe : ∀ s : List Char, (∀ c ∈ s, c ∉ badChars) → sanitize s = s := by
  intro s
  induction s with
  | nil => intro _; rfl
  | cons c t ih =>
    intro h
    rw [sanitize_cons, if_neg (h c (List.mem_cons_self c t)),
      ih (fun x hx => h x (List.mem_cons_of_mem c hx))]

theorem sanitize_idem (s : List Char) : sanitize (sanitize s) = sanitize s :=
  sanitize_fix_of_safe _ (fun c hc => mem_sanitize_not_bad c s hc)

theorem sanitize_append (a b : List Char) : sanitize (a ++ b) = sanitize a ++ sanitize b :=
  List.map_append _ a b

theorem idChar_not_bad (c : Char) (h : idChar c = true) : c ∉ badChars := by
  intro hc
  simp only [badChars] at hc
  fin_cases hc <;> exact absurd h (by decide)

theorem title_candidate_sanitized (r : Response) :
    sanitize (title_candidate r) = title_candidate r := by
  unfold title_candidate
  split
  · split
    · exact sanitize_idem _
    · rfl
  · rfl

theorem header_or_title_sanitized (hf? : Option (List Char)) (f0 : List Char)
    (h0 : sanitize f0 = f0)
    (hh : ∀ hf, hf? = some hf → percentDecode hf = [] ∨ '.' ∉ percentDecode hf) :
    sanitize (header_or_title hf? f0) = header_or_title hf? f0 := by
  cases hf? with
  | none => exact h0
  | some hf =>
    have hcond : ¬(percentDecode hf ≠ [] ∧ '.' ∈ percentDecode hf) := by
      rintro ⟨hne, hdot⟩
      rcases hh hf rfl with h1 | h1
      · exact hne h1
      · exact h1 hdot
    show sanitize (if percentDecode hf ≠ [] ∧ '.' ∈ percentDecode hf
        then percentDecode hf else f0) =
      (if percentDecode hf ≠ [] ∧ '.' ∈ percentDecode hf then percentDecode hf else f0)
    rw [if_neg hcond]
    exact h0

theorem extFromTable_sanitized : ∀ (tbl : List (List Char × List Char)) (ct : List Char),
    (∀ p ∈ tbl, sanitize p.2 = p.2) →
    sanitize (extFromTable tbl ct) = extFromTable tbl ct := by
  intro tbl
  induction tbl with
  | nil => intro ct _; rfl
  | cons p t ih =>
    intro ct h
    unfold extFromTable
    split
    · exact h p (List.mem_cons_self p t)
    · exact ih ct (fun q hq => h q (List.mem_cons_of_mem p hq))

theorem ext_sanitized (ct : List Char) :
    sanitize (get_extension_from_content_type ct) = get_extension_from_content_type ct :=
  extFromTable_sanitized extTable ct (by decide)

theorem fileUnderscore_sanitized : sanitize (lc "file_") = lc "file_" := by decide

theorem choose_filename_sanitized (f1 fid ext : List Char)
    (h1 : sanitize f1 = f1) (hf : sanitize fid = fid) (he : sanitize ext = ext) :
    sanitize (choose_filename f1 fid ext) = choose_filename f1 fid ext := by
  unfold choose_filename
  split_ifs with hc1 hc2 hc3
  · rw [sanitize_append, h1, he]
  · rw [sanitize_append, sanitize_append, fileUnderscore_sanitized, hf, he]
  · exact h1
  · exact h1

theorem fallback_filename_sanitized (fid : List Char) (hf : sanitize fid = fid) :
    sanitize (fallbackMetadata fid).filename = (fallbackMetadata fid).filename := by
  show sanitize (lc "file_" ++ fid) = lc "file_" ++ fid
  rw [sanitize_append, fileUnderscore_sanitized, hf]

theorem count_true_add_count_false (l : List Bool) :
    l.count true + l.count false = l.length := by
  induction l with
  | nil => rfl
  | cons b t ih => cases b <;> simp [List.count_cons] <;> omega

-- ### Claim theorems

/-- C2 counterexample: with a failing network the kind probe raises
(`Except.error`) instead of returning a File classification. -/
theorem c2_counterexample : is_folder netFail (lc "abc") = Except.error () := rfl

/-- C2 (amended): `is_folder` classifies on the post-redirect effective URL but
propagates a network failure as an exception; the folder-expansion caller is
the one that recovers it by assuming File (`classify_child` answers `false`
when the heuristic misses and the probe raises). -/
theorem c2_kind_probe (net : Net) (fid text : List Char)
    (hfail : net (folderUrl fid) = none)
    (hheur : text.containsSub (lc "/folders/" ++ fid) = false) :
    is_folder net fid = Except.error () ∧ classify_child net text fid = false := by
  have h1 : is_folder net fid = Except.error () := by
    unfold is_folder
    rw [hfail]
  refine ⟨h1, ?_⟩
  simp [classify_child, hheur, h1]

theorem c2_kind_probe_witness :
    is_folder netFail (lc "abc") = Except.error () ∧
    classify_child netFail [] (lc "abc") = false :=
  c2_kind_probe netFail (lc "abc") [] rfl (by decide)

/-- C4 counterexample: a raw link containing both a `/folders/` path segment
and an `id=` query parameter resolves to the `id=` value, not the ID embedded
in the folder path. -/
theorem c4_counterexample :
    extract_file_id (lc "https://drive.google.com/drive/folders/FFF?id=QQQ") ≠
      some (lc "FFF") ∧
    extract_file_id (lc "https://drive.google.com/drive/folders/FFF?id=QQQ") =
      some (lc "QQQ") := by
  constructor
  · decide
  · rfl

/-- C4 (amended): the pattern rules are applied in the fixed order file-view
path, generic `id=` query parameter, folder path, legacy open-id, first match
wins; the file-view pattern precedes the query pattern, but the folder pattern
follows it, so a link carrying both a folder segment and an `id=` parameter
yields the `id=` value. -/
theorem c4_rule_order :
    (∀ url g, searchLit (lc "/file/d/") url = some g → extract_file_id url = some g) ∧
    (∀ url g, searchLit (lc "/file/d/") url = none → searchLit (lc "id=") url = some g →
      extract_file_id url = some g) ∧
    extract_file_id (lc "https://drive.google.com/drive/folders/FFF?id=QQQ") =
      some (lc "QQQ") := by
  refine ⟨?_, ?_, rfl⟩
  · intro url g h
    unfold extract_file_id
    rw [h]
  · intro url g h1 h2
    unfold extract_file_id
    rw [h1, h2]

theorem c4_rule_order_witness : extract_file_id (lc "/file/d/XYZ?x") = some (lc "XYZ") :=
  c4_rule_order.1 (lc "/file/d/XYZ?x") (lc "XYZ") (by decide)

/-- C8: the sanitizer is idempotent and its output never contains a character
of the unsafe set. -/
theorem c8_sanitize_idempotent (s : List Char) :
    sanitize (sanitize s) = sanitize s ∧ ∀ c ∈ sanitize s, c ∉ badChars :=
  ⟨sanitize_idem s, fun c hc => mem_sanitize_not_bad c s hc⟩

theorem c8_sanitize_witness :
    sanitize (sanitize (lc "a<b|c")) = sanitize (lc "a<b|c") ∧
    '<' ∉ sanitize (lc "a<b|c") :=
  ⟨(c8_sanitize_idempotent (lc "a<b|c")).1,
    fun h => (c8_sanitize_idempotent (lc "a<b|c")).2 '<' h (by decide)⟩

/-- C6: folder expansion entered with depth greater than the depth bound
returns the empty task list, so the bound (rather than a visited set) cuts
every branch of any folder graph, cyclic ones included; the recursion itself
is well founded on `max_depth + 1 - depth`, each recursive call raising
`depth` by exactly 1. -/
theorem c6_depth_bound (net : Net) (fid pname : List Char) (depth max_depth : Nat)
    (h : depth > max_depth) :
    list_folder_items net fid pname depth max_depth = [] := by
  unfold list_folder_items
  rw [dif_pos h]

theorem c6_depth_witness : list_folder_items netCyc (lc "A") (lc "n") 6 5 = [] :=
  c6_depth_bound netCyc (lc "A") (lc "n") 6 5 (by decide)

/-- C7: resolution failures are recovered locally: a raised network error in
either request of `get_file_metadata` yields the best-effort descriptor
(synthetic `file_<id>` name, canonical unconfirmed URL), and a raised network
error on the folder-page fetch makes `list_folder_items` answer the empty
branch result. -/
theorem c7_resolution_recovery (net : Net) (fid : List Char) :
    ((net (infoUrl fid) = none ∨ net (downloadUrl fid) = none) →
      get_file_metadata net fid = fallbackMetadata fid) ∧
    (∀ pname depth max_depth, net (folderUrl fid) = none →
      list_folder_items net fid pname depth max_depth = []) := by
  constructor
  · intro h
    unfold get_file_metadata
    cases hinfo : net (infoUrl fid) with
    | none => rfl
    | some ir =>
      cases hdl : net (downloadUrl fid) with
      | none => rfl
      | some dr =>
        rcases h with h | h
        · rw [hinfo] at h
          simp at h
        · rw [hdl] at h
          simp at h
  · intro pname depth max_depth hfail
    unfold list_folder_items
    split
    · rfl
    · rw [hfail]

theorem c7_recovery_witness :
    get_file_metadata netFail (lc "abc") = fallbackMetadata (lc "abc") ∧
    list_folder_items netFail (lc "abc") [] 0 5 = [] :=
  ⟨(c7_resolution_recovery netFail (lc "abc")).1 (Or.inl rfl),
    (c7_resolution_recovery netFail (lc "abc")).2 [] 0 5 rfl⟩

/-- C5: when the first response exposes the warning marker (marker in the
body or non-200 status), a first cookie whose name starts with the warning
prefix leads to exactly one retry carrying its value as the `confirm`
parameter, whose response is final; with no such cookie the handshake falls
back to the unconfirmed first response and issues no retry. -/
theorem c5_confirmation_handshake (net : Net) (base : List Char) (r : Response)
    (hwarn : r.body.containsSub (lc "download_warning") = true ∨ r.status ≠ 200) :
    (∀ kv, r.cookies.find? (fun p => (lc "download_warning").isPrefixOf p.1) = some kv →
      confirm_step net base r =
        (net (base ++ lc "&confirm=" ++ kv.2), [base ++ lc "&confirm=" ++ kv.2])) ∧
    (r.cookies.find? (fun p => (lc "download_warning").isPrefixOf p.1) = none →
      confirm_step net base r = (some r, [])) := by
  constructor
  · intro kv hkv
    unfold confirm_step
    rw [if_pos hwarn, hkv]
  · intro hnone
    unfold confirm_step
    rw [if_pos hwarn, hnone]

theorem c5_handshake_witness :
    confirm_step netEcho (lc "B") resp5 =
      (some ⟨lc "B&confirm=TOK", 200, [], [], []⟩, [lc "B&confirm=TOK"]) := by
  have h := (c5_confirmation_handshake netEcho (lc "B") resp5 (Or.inr (by decide))).1
    (lc "download_warning_a", lc "TOK") (by decide)
  rw [h]
  rfl

/-- C10: a task whose resource ID probes as a folder at download time is
skipped by `download_file` with no file written and a failed outcome, and any
task list containing it yields a failed tally of at least one. -/
theorem c10_folder_task_failed (net : Net) (download_dir fid : List Char)
    (fname : Option (List Char)) (tasks : List (List Char × Option (List Char)))
    (hfold : is_folder net fid = Except.ok true) (hmem : (fid, fname) ∈ tasks) :
    download_file net download_dir fid fname = (false, []) ∧
    0 < (run_tasks net download_dir tasks).2 := by
  have h1 : download_file net download_dir fid fname = (false, []) := by
    unfold download_file
    rw [hfold]
  refine ⟨h1, ?_⟩
  have hmem2 : false ∈ tasks.map (fun t => (download_file net download_dir t.1 t.2).1) :=
    List.mem_map.mpr ⟨(fid, fname), hmem, by rw [h1]⟩
  show 0 < (tasks.map (fun t => (download_file net download_dir t.1 t.2).1)).count false
  exact List.count_pos_iff.mpr hmem2

theorem c10_folder_witness :
    download_file netFolder (lc "d") (lc "abc") none = (false, []) ∧
    0 < (run_tasks netFolder (lc "d") [(lc "abc", none)]).2 :=
  c10_folder_task_failed netFolder (lc "d") (lc "abc") none [(lc "abc", none)] rfl
    (List.mem_singleton.mpr rfl)

/-- C1 counterexample: with a failing network, a batch holding one valid file
link makes the unguarded kind probe of queue construction raise, so
`download_multiple` aborts with an exception and reports no summary. -/
theorem c1_counterexample :
    download_multiple netFail (lc "downloads") [lc "id=abc"] = Except.error () := rfl

/-- C1 (amended): once the task queue is built, the batch phase always
completes with a summary whose successful and failed counts cover every queued
task, and the outcome tallies are additive across independent task lists (one
task's failure cannot change another's outcome); queue construction itself can
still abort on a raised probe error. -/
theorem c1_batch_completion (net : Net) (download_dir : List Char)
    (links : List (List Char)) (tasks : List (List Char × Option (List Char)))
    (inv : List (List Char))
    (h : queue_tasks net links = Except.ok (tasks, inv)) :
    download_multiple net download_dir links =
      Except.ok ⟨(run_tasks net download_dir tasks).1,
        (run_tasks net download_dir tasks).2, inv⟩ ∧
    (run_tasks net download_dir tasks).1 + (run_tasks net download_dir tasks).2 =
      tasks.length ∧
    ∀ ts1 ts2, run_tasks net download_dir (ts1 ++ ts2) =
      ((run_tasks net download_dir ts1).1 + (run_tasks net download_dir ts2).1,
        (run_tasks net download_dir ts1).2 + (run_tasks net download_dir ts2).2) := by
  refine ⟨?_, ?_, ?_⟩
  · unfold download_multiple
    rw [h]
  · simp only [run_tasks]
    rw [count_true_add_count_false]
    exact List.length_map _ _
  · intro ts1 ts2
    simp [run_tasks, List.count_append]

theorem c1_batch_witness :
    download_multiple netFile (lc "d") [lc "id=abc"] = Except.ok ⟨1, 0, []⟩ := by
  have h := (c1_batch_completion netFile (lc "d") [lc "id=abc"]
    [(lc "abc", none)] [] rfl).1
  rw [h]
  rfl

/-- C9 counterexample: a batch holding only an unrecognized link completes
with both counters at zero — the invalid link is reported but reflected in
neither the successful nor the failed count. -/
theorem c9_counterexample :
    extract_file_id (lc "??") = none ∧
    download_multiple netFail (lc "d") [lc "??"] = Except.ok ⟨0, 0, [lc "??"]⟩ :=
  ⟨rfl, rfl⟩

/-- C9 (amended): an unrecognized link makes the resolver answer `none`
(no crash), the orchestrator reports it immediately and queues no task for
it, and the batch's successful/failed counts are exactly those of the batch
without that link — the invalid link itself is not reflected in them. -/
theorem c9_invalid_links (net : Net) (download_dir link : List Char)
    (rest : List (List Char)) (h : extract_file_id link = none) :
    (∀ ts inv, queue_tasks net rest = Except.ok (ts, inv) →
      queue_tasks net (link :: rest) = Except.ok (ts, link :: inv)) ∧
    (∀ s, download_multiple net download_dir (link :: rest) = Except.ok s →
      ∃ s2, download_multiple net download_dir rest = Except.ok s2 ∧
        s.successful = s2.successful ∧ s.failed = s2.failed ∧
        s.invalid = link :: s2.invalid) := by
  constructor
  · intro ts inv hq
    simp [queue_tasks, h, hq]
  · intro s hs
    cases hq : queue_tasks net rest with
    | error e =>
      have hq2 : queue_tasks net (link :: rest) = Except.error e := by
        simp [queue_tasks, h, hq]
      unfold download_multiple at hs
      rw [hq2] at hs
      exact absurd hs (by simp)
    | ok p =>
      obtain ⟨ts, inv⟩ := p
      have hq2 : queue_tasks net (link :: rest) = Except.ok (ts, link :: inv) := by
        simp [queue_tasks, h, hq]
      simp only [download_multiple, hq2] at hs
      refine ⟨⟨(run_tasks net download_dir ts).1, (run_tasks net download_dir ts).2, inv⟩,
        ?_, ?_⟩
      · unfold download_multiple
        rw [hq]
      · injection hs with hs2
        rw [← hs2]
        exact ⟨rfl, rfl, rfl⟩

theorem c9_invalid_witness :
    queue_tasks netFail [lc "??"] = Except.ok ([], [lc "??"]) :=
  (c9_invalid_links netFail (lc "d") (lc "??") [] rfl).1 [] [] rfl

/-- C3 counterexample: a download response carrying the content-disposition
directive `filename="a/b.pdf"` produces a descriptor filename that still
contains the path-unsafe `/` — it is not a fixpoint of the sanitizer. -/
theorem c3_counterexample :
    (get_file_metadata netDisp (lc "abc")).filename = lc "a/b.pdf" ∧
    sanitize (get_file_metadata netDisp (lc "abc")).filename ≠
      (get_file_metadata netDisp (lc "abc")).filename := by
  constructor
  · rfl
  · decide

/-- C3 (amended): only the page-title candidate is sanitized; whenever the
download response yields no usable content-disposition filename (absent, or
decoding to an empty or extensionless name), every filename the resolver
produces — sanitized title, content-type extension, synthetic `file_<id>` —
is free of path-unsafe characters, provided the ID is made of ID-pattern
characters; a content-disposition filename instead bypasses sanitization. -/
theorem c3_header_bypass (net : Net) (fid : List Char)
    (hid : ∀ c ∈ fid, idChar c = true)
    (hcd : ∀ r, net (downloadUrl fid) = some r → ∀ hf, headerFilename r = some hf →
      percentDecode hf = [] ∨ '.' ∉ percentDecode hf) :
    sanitize (get_file_metadata net fid).filename = (get_file_metadata net fid).filename := by
  have hfid : sanitize fid = fid :=
    sanitize_fix_of_safe fid (fun c hc => idChar_not_bad c (hid c hc))
  unfold get_file_metadata
  cases hinfo : net (infoUrl fid) with
  | none => exact fallback_filename_sanitized fid hfid
  | some ir =>
    cases hdl : net (downloadUrl fid) with
    | none => exact fallback_filename_sanitized fid hfid
    | some dr =>
      exact choose_filename_sanitized _ _ _
        (header_or_title_sanitized _ _ (title_candidate_sanitized ir)
          (fun hf hhf => hcd dr hdl hf hhf))
        hfid (ext_sanitized _)

theorem c3_header_witness :
    sanitize (get_file_metadata netFail (lc "abc")).filename =
      (get_file_metadata netFail (lc "abc")).filename :=
  c3_header_bypass netFail (lc "abc") (by decide) (fun r hr => Option.noConfusion hr)
